/-
Verification development for `src/Expense_tracker.py`.

The program is a Streamlit expense tracker. Its persistence layer stores a
pandas DataFrame in an Excel workbook (`expenses.xlsx`, sheet "Expenses"),
and the UI performs load → mutate → save cycles on it.

Shallow embedding conventions:
* a DataFrame is a `Frame`: an ordered list of column names plus rows, each
  row an ordered list of `Cell` values;
* the on-disk workbook is a `FileState`: missing, corrupt/unparseable, or a
  readable frame;
* monetary amounts are modelled as `Rat` (the program uses 2-decimal
  floats; the claims under study do not depend on binary rounding);
* `pd.to_datetime(·, errors="coerce")` is modelled by `toDatetime`, with a
  parser for the `YYYY-MM-DD HH:MM` format that the program itself writes
  (pandas accepts further formats; strings outside this format model the
  unparseable case, which is what the claims exercise).
-/
import Mathlib

/-- Calendar date and time at minute precision, as produced by
`datetime.now().strftime("%Y-%m-%d %H:%M")` and by parsing such strings. -/
structure DateVal where
  year : Nat
  month : Nat
  day : Nat
  hour : Nat
  minute : Nat
deriving DecidableEq, Repr

/-- One cell of a tabular frame: a string, a number, a parsed datetime, or
pandas' missing-datetime marker NaT. -/
inductive Cell where
  | str (s : String)
  | num (q : Rat)
  | dt (d : DateVal)
  | naT
deriving DecidableEq, Repr

/-- A pandas DataFrame with a default RangeIndex: ordered column names and
ordered rows of cells.  Row labels are the positions `0, …, rows.length-1`,
exactly as after `pd.read_excel` or `reset_index(drop=True)`. -/
structure Frame where
  cols : List String
  rows : List (List Cell)
deriving DecidableEq, Repr

/-- State of the persisted workbook `expenses.xlsx`: absent, present but
unreadable/corrupt (read raises), or readable with the given content. -/
inductive FileState where
  | missing
  | corrupt
  | ok (f : Frame)
deriving DecidableEq, Repr

/-- The fixed category catalog (`CATEGORIES` in the source). -/
def CATEGORIES : List String :=
  ["Housing", "Utilities", "Food", "Transportation", "Insurance", "Healthcare",
   "Debt Payments", "Savings & Investments", "Personal Care", "Entertainment",
   "Clothing", "Miscellaneous"]

/-- The five persisted columns, in order (`COLUMNS` in the source). -/
def COLUMNS : List String := ["Date", "Category", "Amount (INR)", "Type", "Note"]

/-- Leap-year test of the Gregorian calendar (pandas validates real dates). -/
def isLeap (y : Nat) : Bool := (y % 4 == 0 && y % 100 != 0) || y % 400 == 0

/-- Number of days in a month of a given year. -/
def daysInMonth (y m : Nat) : Nat :=
  if m == 2 then (if isLeap y then 29 else 28)
  else if m == 4 || m == 6 || m == 9 || m == 11 then 30
  else 31

/-- Two decimal digits read as a number below 100. -/
def twoDigits (a b : Char) : Option Nat :=
  if a.isDigit && b.isDigit then some ((a.toNat - 48) * 10 + (b.toNat - 48))
  else none

/-- Parse a `YYYY-MM-DD HH:MM` string into a `DateVal`, validating calendar
ranges; any other string is unparseable (models `pd.to_datetime` coercion
failure on it). -/
def parseDate (s : String) : Option DateVal :=
  match s.toList with
  | [y1, y2, y3, y4, '-', m1, m2, '-', d1, d2, ' ', h1, h2, ':', n1, n2] =>
    match twoDigits y1 y2, twoDigits y3 y4, twoDigits m1 m2, twoDigits d1 d2,
          twoDigits h1 h2, twoDigits n1 n2 with
    | some ya, some yb, some mo, some da, some ho, some mi =>
      let y := ya * 100 + yb
      if 1 ≤ mo && mo ≤ 12 && 1 ≤ da && da ≤ daysInMonth y mo && ho ≤ 23 && mi ≤ 59 then
        some ⟨y, mo, da, ho, mi⟩
      else none
    | _, _, _, _, _, _ => none
  | _ => none

/-- The empty five-column frame `pd.DataFrame(columns=COLUMNS)`. -/
def emptyFrame : Frame := ⟨COLUMNS, []⟩

/-- Source `load_data` (lines 38–43): read the workbook; on any failure
(missing or corrupt file) the `except` branch returns the empty frame, so no
error ever reaches the caller. -/
def load_data : FileState → Frame
  | .ok f => f
  | _ => emptyFrame

/-- Source `save_data` (lines 45–47): overwrite the whole workbook with the
given frame (`pd.ExcelWriter(..., mode="w")`). -/
def save_data (f : Frame) : FileState := .ok f

/-- Source initialization (lines 32–35): if the workbook is absent, an empty
five-column frame is written, so a fresh ledger file holds `emptyFrame`. -/
def initFile : FileState := save_data emptyFrame

/-- Input collected by the Add-Entry form, plus the timestamp string the
handler takes from `datetime.now().strftime("%Y-%m-%d %H:%M")`. -/
structure EntryInput where
  dateStr : String
  category : String
  amount : Rat
  txnType : String
  note : String
deriving DecidableEq, Repr

/-- The `new_entry` row built by the Add-Entry handler (lines 78–84), in
column order Date, Category, Amount (INR), Type, Note. -/
def entryRow (e : EntryInput) : List Cell :=
  [.str e.dateStr, .str e.category, .num e.amount, .str e.txnType, .str e.note]

/-- Source Add-Entry handler (lines 73–87): reject a non-positive amount
(error message, no mutation), otherwise load, concatenate the new row and
save.  `pd.concat(..., ignore_index=True)` aligns columns by name; on a frame
with the five standard columns — the only shape the add path itself ever
produces — it appends the row. -/
def addEntry (fs : FileState) (e : EntryInput) : FileState :=
  if e.amount ≤ 0 then fs
  else save_data ⟨(load_data fs).cols, (load_data fs).rows ++ [entryRow e]⟩

/-- Source Remove-Last handler (lines 94–106): on a non-empty frame, drop the
final row (`df.iloc[:-1]`) and save, reporting the removed row
(`df.iloc[-1]`); on an empty frame, only an informational message is shown —
no save happens, the file state is returned unchanged and `none` marks
"nothing to remove". -/
def removeLast (fs : FileState) : FileState × Option (List Cell) :=
  let df := load_data fs
  if df.rows.isEmpty then (fs, none)
  else (save_data ⟨df.cols, df.rows.dropLast⟩, df.rows.getLast?)

/-- Model of `pd.to_datetime(cell, errors="coerce")` on one cell: a parseable
string becomes a datetime, an already-datetime cell stays, everything else
(unparseable string, NaT) becomes NaT. -/
def toDatetime : Cell → Cell
  | .str s => match parseDate s with
    | some d => .dt d
    | none => .naT
  | .dt d => .dt d
  | _ => .naT

/-- Left-pad the decimal representation of `n` with zeros to width `w`. -/
def padNum (w n : Nat) : String :=
  String.mk (List.replicate (w - (toString n).length) '0') ++ toString n

/-- Model of `.dt.to_period("M").astype(str)` on one converted Date cell: a
datetime renders as `"YYYY-MM"`, while NaT renders as the STRING `"NaT"`
(this is exactly what `astype(str)` does to a NaT period). -/
def monthCell : Cell → String
  | .dt d => padNum 4 d.year ++ "-" ++ padNum 2 d.month
  | _ => "NaT"

/-- Per-row effect of the tab2 date processing (lines 126–127): replace the
cell at the Date position `di` by its coerced datetime, then append the month
string as a new trailing cell. -/
def processRow (di : Nat) (r : List Cell) : List Cell :=
  let r2 := r.set di (toDatetime (r.getD di .naT))
  r2 ++ [.str (monthCell (r2.getD di .naT))]

/-- Tab2 date processing (lines 126–127): `data["Date"] =
pd.to_datetime(data["Date"], errors="coerce")` followed by `data["Month"] =
data["Date"].dt.to_period("M").astype(str)` — every row's Date cell is
coerced and a new `Month` column is appended to the frame. -/
def dateProcess (f : Frame) : Frame :=
  ⟨f.cols ++ ["Month"], f.rows.map (processRow (f.cols.indexOf "Date"))⟩

/-- Model of `Series.dropna` on a list of cells: removes missing values
(NaT); note that the string `"NaT"` is an ordinary value, not missing. -/
def dropNa (cells : List Cell) : List Cell := cells.filter (fun c => c ≠ .naT)

/-- Render a Month-column cell the way the selectbox sees it; after
`astype(str)` these cells are always strings. -/
def monthCellStr : Cell → String
  | .str s => s
  | _ => ""

/-- First-occurrence deduplication with an accumulator of already-seen
values, as `Series.unique` performs. -/
def uniqueKeepAux (seen : List String) : List String → List String
  | [] => []
  | s :: rest =>
    if s ∈ seen then uniqueKeepAux seen rest
    else s :: uniqueKeepAux (s :: seen) rest

/-- First-occurrence deduplication, as `Series.unique` performs. -/
def uniqueKeep (l : List String) : List String := uniqueKeepAux [] l

/-- Month options of the tab2 selectbox (lines 130–133):
`sorted(data["Month"].dropna().unique(), reverse=True)` over the processed
frame — collect the Month column, drop missing values, deduplicate, sort
descending. -/
def availableMonths (g : Frame) : List String :=
  let mi := g.cols.indexOf "Month"
  let ms := dropNa (g.rows.map (fun r => r.getD mi .naT))
  (uniqueKeep (ms.map monthCellStr)).insertionSort (fun a b => b ≤ a)

/-- The three choices of the "Show Summary for" radio (lines 138–141). -/
inductive ShowFilter where
  | expensesOnly
  | savingsOnly
  | all
deriving DecidableEq, Repr

/-- Row predicate of the type filter (lines 143–148): Expenses Only keeps
`Type == "Expense"`, Savings Only keeps `Type != "Expense"`, All keeps
everything.  `ti` is the position of the Type column. -/
def typeMatches (sh : ShowFilter) (ti : Nat) (r : List Cell) : Bool :=
  match sh with
  | .expensesOnly => r.getD ti .naT == .str "Expense"
  | .savingsOnly => !(r.getD ti .naT == .str "Expense")
  | .all => true

/-- Month-then-type row selection of tab2 (lines 135 and 143–148):
`monthly_data = data[data["Month"] == selected_month]` then the type filter.
Pandas keeps each surviving row's original label, modelled by filtering the
position-labelled rows `g.rows.enum`. -/
def filterByMonthAndType (g : Frame) (month : String) (sh : ShowFilter) :
    List (Nat × List Cell) :=
  let mi := g.cols.indexOf "Month"
  let ti := g.cols.indexOf "Type"
  (g.rows.enum.filter (fun p => p.2.getD mi .naT == .str month)).filter
    (fun p => typeMatches sh ti p.2)

/-- Numeric value of an Amount cell; the program only ever writes numbers
into the Amount (INR) column. -/
def amountVal : Cell → Rat
  | .num q => q
  | _ => 0

/-- Tab2 grouped summary (lines 153–158):
`filtered.groupby("Category")["Amount (INR)"].sum().sort_values(ascending=False)`
— per distinct Category value of the filtered rows, the sum of its Amount
cells, ordered by total descending.  (`groupby` first sorts the keys; key
order only influences the placement of equal totals, which the program's
contract leaves unspecified, so key collection is modelled by `dedup`.) -/
def totalsByCategory (g : Frame) (filtered : List (Nat × List Cell)) :
    List (Cell × Rat) :=
  let ci := g.cols.indexOf "Category"
  let ai := g.cols.indexOf "Amount (INR)"
  let keys := (filtered.map (fun p => p.2.getD ci Cell.naT)).dedup
  let sums := keys.map (fun c =>
    (c, ((filtered.filter (fun p => p.2.getD ci Cell.naT == c)).map
          (fun p => amountVal (p.2.getD ai Cell.naT))).sum))
  sums.insertionSort (fun a b => b.2 ≤ a.2)

/-- Labels offered by the delete multiselect (lines 172–174):
`options=list(filtered.index)` — the original full-frame positions of the
filtered rows. -/
def deleteOptions (g : Frame) (month : String) (sh : ShowFilter) : List Nat :=
  (filterByMonthAndType g month sh).map Prod.fst

/-- Model of `DataFrame.drop(index=sel)` on a RangeIndex frame: keep the rows
whose position is not listed in `sel`, in order. -/
def dropIndex (rows : List (List Cell)) (sel : List Nat) : List (List Cell) :=
  (rows.enum.filter (fun p => !sel.contains p.1)).map Prod.snd

/-- Delete-Selected-Rows handler (lines 182–185) together with the tab2
processing that produced `data` (lines 120 and 126–127): reload the file,
process dates, drop the selected labels, reset the index and save.
`DataFrame.drop` raises `KeyError` when a label is absent from the index
(out of range here), in which case nothing is saved: `none`. -/
def deleteSelectedRows (fs : FileState) (sel : List Nat) : Option FileState :=
  let data := dateProcess (load_data fs)
  if sel.all (fun i => i < data.rows.length) then
    some (save_data ⟨data.cols, dropIndex data.rows sel⟩)
  else none

/-- Rows of the saved workbook produced by an operation's result, empty when
nothing was saved or the file is unreadable. -/
def savedRows : Option FileState → List (List Cell)
  | some (.ok f) => f.rows
  | _ => []

/-- Example stored row: a Food expense logged at 2024-03-01 10:00. -/
def rowFood : List Cell :=
  [.str "2024-03-01 10:00", .str "Food", .num 250, .str "Expense", .str ""]

/-- Example stored row: a Housing income logged at 2024-03-02 11:30. -/
def rowHousing : List Cell :=
  [.str "2024-03-02 11:30", .str "Housing", .num 500, .str "Income/Savings", .str "x"]

/-- Example two-row stored ledger. -/
def frameEx : Frame := ⟨COLUMNS, [rowFood, rowHousing]⟩

/-- Example stored ledger whose single row has an unparseable Date cell. -/
def badDateFrame : Frame :=
  ⟨COLUMNS, [[.str "hello", .str "Food", .num 5, .str "Expense", .str ""]]⟩

/-- Five example stored rows, used for the deletion scenario. -/
def fiveRows : List (List Cell) :=
  [[.str "2024-05-01 08:00", .str "Food", .num 10, .str "Expense", .str "a"],
   [.str "2024-05-02 08:15", .str "Housing", .num 20, .str "Expense", .str "b"],
   [.str "2024-05-03 08:30", .str "Utilities", .num 30, .str "Income/Savings", .str "c"],
   [.str "2024-05-04 08:45", .str "Food", .num 40, .str "Expense", .str "d"],
   [.str "2024-05-05 09:00", .str "Clothing", .num 50, .str "Expense", .str "e"]]

/-- Example five-row stored ledger. -/
def fiveRowFrame : Frame := ⟨COLUMNS, fiveRows⟩

/-- Example form input: a positive Food expense. -/
def entryEx1 : EntryInput := ⟨"2024-01-05 09:00", "Food", 250, "Expense", ""⟩

/-- Example form input: a positive Housing income. -/
def entryEx2 : EntryInput := ⟨"2024-01-06 10:00", "Housing", 100, "Income/Savings", "rent"⟩

theorem load_save (f : Frame) : load_data (save_data f) = f := rfl

theorem dropIndex_map (g : List Cell → List Cell) (rows : List (List Cell))
    (sel : List Nat) : dropIndex (rows.map g) sel = (dropIndex rows sel).map g := by
  unfold dropIndex
  rw [List.enum_map, List.filter_map, List.map_map, List.map_map]
  rfl

/-- Claim C1: refuted at a concrete input.  Deleting a selected row saves the
tab2-processed frame, whose columns are the five standard ones PLUS the
derived `Month` column, and whose Date cells have been replaced by parsed
datetimes — so the persisted file after a delete has six columns and a
non-string Date, contrary to the five-column `YYYY-MM-DD HH:MM` contract. -/
theorem delete_breaks_five_column_schema :
    deleteSelectedRows (save_data frameEx) [0] =
      some (save_data ⟨COLUMNS ++ ["Month"],
        [[Cell.dt ⟨2024, 3, 2, 11, 30⟩, Cell.str "Housing", Cell.num 500,
          Cell.str "Income/Savings", Cell.str "x", Cell.str "2024-03"]]⟩) ∧
    COLUMNS ++ ["Month"] ≠ COLUMNS := by
  exact ⟨rfl, by decide⟩

/-- Claim C4: refuted at a concrete input.  A row whose Date cell does not
parse is NOT dropped from month bucketing: its month renders as the string
"NaT", which survives `dropna` (the coercion to `str` happened first), so
"NaT" appears as an available month and the row appears in that month's
filtered view. -/
theorem unparseable_date_gets_nat_bucket :
    availableMonths (dateProcess badDateFrame) = ["NaT"] ∧
    filterByMonthAndType (dateProcess badDateFrame) "NaT" .all =
      [(0, [Cell.naT, Cell.str "Food", Cell.num 5, Cell.str "Expense",
            Cell.str "", Cell.str "NaT"])] := by
  exact ⟨by decide, by decide⟩

/-- Claim C5: the save path is a plain in-place whole-file overwrite, so a
save interrupted mid-write leaves the workbook in the corrupt state, from
which the next `load_data` returns the empty frame — neither the complete
old content nor the complete new content.  This theorem evaluates the code
at that failing state: a corrupt file loads as empty, which differs from the
old ledger content. -/
theorem corrupt_file_loses_old_content :
    load_data .corrupt = emptyFrame ∧
    load_data (save_data frameEx) = frameEx ∧
    emptyFrame ≠ frameEx := by
  exact ⟨rfl, rfl, by decide⟩

/-- Claim C8: `load_data` is fail-soft — a missing file, a corrupt file and
a freshly initialized file all load as the same empty five-column frame, and
the total function surfaces no error to the caller. -/
theorem load_data_fail_soft :
    load_data .missing = emptyFrame ∧
    load_data .corrupt = emptyFrame ∧
    load_data initFile = emptyFrame ∧
    load_data .missing = load_data .corrupt := by
  exact ⟨rfl, rfl, rfl, rfl⟩

/-- Claim C9: Remove-Last on an empty ledger yields the distinguishable
`none` ("nothing to remove") result and performs no save: the file state is
returned exactly as it was. -/
theorem removeLast_empty_no_save (fs : FileState)
    (h : (load_data fs).rows = []) : removeLast fs = (fs, none) := by
  simp [removeLast, h]

/-- Witness for C9 at the freshly initialized (empty) ledger file. -/
theorem removeLast_empty_no_save_witness : removeLast initFile = (initFile, none) :=
  removeLast_empty_no_save initFile rfl

theorem load_foldl_addEntry (es : List EntryInput) (fs : FileState)
    (h : ∀ e ∈ es, 0 < e.amount) :
    load_data (es.foldl addEntry fs) =
      ⟨(load_data fs).cols, (load_data fs).rows ++ es.map entryRow⟩ := by
  induction es generalizing fs with
  | nil => simp
  | cons e es ih =>
    have he : ¬ e.amount ≤ 0 := not_le.mpr (h e (List.mem_cons_self e es))
    have hstep : addEntry fs e =
        save_data ⟨(load_data fs).cols, (load_data fs).rows ++ [entryRow e]⟩ := by
      simp [addEntry, he]
    have hrest : ∀ e' ∈ es, 0 < e'.amount := fun e' he' => h e' (List.mem_cons_of_mem e he')
    rw [List.foldl_cons, hstep, ih _ hrest]
    simp [load_save]

/-- Claim C3: starting from the freshly initialized empty ledger, after any
sequence of (validated, positive-amount) appends, `load` returns exactly the
appended rows in append order, each carrying the category, amount, type and
note given at append time, under the five standard columns. -/
theorem append_load_roundtrip (es : List EntryInput)
    (h : ∀ e ∈ es, 0 < e.amount) :
    load_data (es.foldl addEntry initFile) = ⟨COLUMNS, es.map entryRow⟩ := by
  rw [load_foldl_addEntry es initFile h]
  simp [initFile, load_save, emptyFrame]

/-- Witness for C3 on a concrete two-append sequence. -/
theorem append_load_roundtrip_witness :
    load_data ([entryEx1, entryEx2].foldl addEntry initFile) =
      ⟨COLUMNS, [entryEx1, entryEx2].map entryRow⟩ :=
  append_load_roundtrip [entryEx1, entryEx2] (by decide)

/-- Claim C2: the Savings-Only filter of a month's view keeps exactly the
labelled rows whose Type cell differs from `"Expense"` — any value other
than `"Expense"`, not merely `"Income/Savings"`, passes the filter. -/
theorem savingsOnly_matches_ne_expense (g : Frame) (month : String)
    (p : Nat × List Cell) :
    p ∈ filterByMonthAndType g month .savingsOnly ↔
      p ∈ g.rows.enum ∧
      p.2.getD (g.cols.indexOf "Month") .naT = .str month ∧
      p.2.getD (g.cols.indexOf "Type") .naT ≠ .str "Expense" := by
  simp only [filterByMonthAndType, typeMatches, List.mem_filter, Bool.not_eq_true',
    beq_iff_eq, beq_eq_false_iff_ne, ne_eq, and_assoc]

/-- Claim C6 as stated is refuted at a concrete input: appending five entries
and deleting positions {1, 3} does keep positions {0, 2, 4} in order, but the
saved rows are NOT the unchanged original entries — each kept row's Date cell
has been replaced by its parsed datetime and a Month cell has been appended
(the Month-column leak of C1). -/
theorem removeAt_unchanged_counterexample :
    savedRows (deleteSelectedRows (save_data fiveRowFrame) [1, 3]) ≠
      [fiveRows.getD 0 [], fiveRows.getD 2 [], fiveRows.getD 4 []] := by
  decide

/-- Claim C6 (amended): on a five-column stored ledger, deleting a set of
in-range positions saves exactly the rows at positions not in the set, in
their original relative order, each transformed only by the tab2 date
processing (Date cell coerced, Month cell appended) — in particular cells
1–4 (Category, Amount, Type, Note) of every kept row are unchanged; a
selection containing an out-of-range position raises (`DataFrame.drop`
KeyError) before anything is saved. -/
theorem removeAt_spec (f : Frame) (sel : List Nat) (hc : f.cols = COLUMNS) :
    (sel.all (fun i => i < f.rows.length) = true →
       deleteSelectedRows (save_data f) sel =
         some (save_data ⟨COLUMNS ++ ["Month"],
           (dropIndex f.rows sel).map (processRow 0)⟩)) ∧
    (sel.all (fun i => i < f.rows.length) = false →
       deleteSelectedRows (save_data f) sel = none) ∧
    (∀ r : List Cell, ∀ j : Nat, r.length = 5 → j < 5 → j ≠ 0 →
       (processRow 0 r).getD j .naT = r.getD j .naT) := by
  have hdi : COLUMNS.indexOf "Date" = 0 := rfl
  refine ⟨?_, ?_, ?_⟩
  · intro hs
    simp only [deleteSelectedRows, dateProcess, load_save, hc, hdi,
      List.length_map, hs, if_true, dropIndex_map]
  · intro hs
    simp only [deleteSelectedRows, dateProcess, load_save, hc, hdi,
      List.length_map, hs, Bool.false_eq_true, if_false]
  · intro r j h5 hj hj0
    simp only [processRow]
    rw [List.getD_eq_getElem?_getD, List.getD_eq_getElem?_getD,
      List.getElem?_append_left (by simp [h5]; omega),
      List.getElem?_set_ne (Ne.symm hj0), List.getD_eq_getElem?_getD]

/-- Witness for C6 (amended) on the five-row ledger with selection {1, 3}. -/
theorem removeAt_spec_witness :
    deleteSelectedRows (save_data fiveRowFrame) [1, 3] =
      some (save_data ⟨COLUMNS ++ ["Month"],
        (dropIndex fiveRowFrame.rows [1, 3]).map (processRow 0)⟩) :=
  (removeAt_spec fiveRowFrame [1, 3] rfl).1 (by decide)

instance : IsTotal (Cell × Rat) (fun a b => b.2 ≤ a.2) :=
  ⟨fun a b => le_total b.2 a.2⟩

instance : IsTrans (Cell × Rat) (fun a b => b.2 ≤ a.2) :=
  ⟨fun _ _ _ hab hbc => le_trans hbc hab⟩

/-- Claim C7: the grouped summary lists exactly the Category values occurring
in the filtered rows (none with no matching row is present), each paired with
the sum of the Amount cells of its rows, and the list is ordered by total
descending. -/
theorem totalsByCategory_spec (g : Frame) (filtered : List (Nat × List Cell)) :
    (∀ c : Cell,
       c ∈ (totalsByCategory g filtered).map Prod.fst ↔
       c ∈ filtered.map (fun p => p.2.getD (g.cols.indexOf "Category") Cell.naT)) ∧
    (∀ pr ∈ totalsByCategory g filtered,
       pr.2 = ((filtered.filter (fun p =>
           p.2.getD (g.cols.indexOf "Category") Cell.naT == pr.1)).map
           (fun p => amountVal (p.2.getD (g.cols.indexOf "Amount (INR)") Cell.naT))).sum) ∧
    List.Sorted (fun a b : Cell × Rat => b.2 ≤ a.2) (totalsByCategory g filtered) := by
  simp only [totalsByCategory]
  refine ⟨?_, ?_, ?_⟩
  · intro c
    rw [List.Perm.mem_iff ((List.perm_insertionSort _ _).map Prod.fst)]
    simp [List.mem_dedup]
  · intro pr hpr
    rw [List.mem_insertionSort] at hpr
    obtain ⟨c, _, he⟩ := List.mem_map.mp hpr
    subst he
    rfl
  · exact List.sorted_insertionSort _ _

/-- Witness for C7: on the March 2024 all-rows view of the example ledger,
"Housing" is listed (it occurs in the filtered set). -/
theorem totalsByCategory_spec_witness :
    Cell.str "Housing" ∈
      (totalsByCategory (dateProcess frameEx)
        (filterByMonthAndType (dateProcess frameEx) "2024-03" .all)).map Prod.fst :=
  ((totalsByCategory_spec (dateProcess frameEx)
      (filterByMonthAndType (dateProcess frameEx) "2024-03" .all)).1
    (Cell.str "Housing")).mpr (by decide)

/-- Claim C10: the delete multiselect offers exactly the labels of the rows
in the current month-and-type filtered view, each label being that row's
position in the full loaded frame; hence any selection drawn from the offered
options only ever names rows of the displayed filtered view. -/
theorem deleteOptions_spec (g : Frame) (month : String) (sh : ShowFilter) :
    (∀ i : Nat, i ∈ deleteOptions g month sh ↔
       ∃ r : List Cell, (i, r) ∈ filterByMonthAndType g month sh) ∧
    (∀ i : Nat, ∀ r : List Cell, (i, r) ∈ filterByMonthAndType g month sh →
       g.rows[i]? = some r) ∧
    (∀ sel : List Nat, (∀ i ∈ sel, i ∈ deleteOptions g month sh) →
       ∀ i ∈ sel, ∃ r : List Cell, g.rows[i]? = some r ∧
         (i, r) ∈ filterByMonthAndType g month sh) := by
  have hmem : ∀ i r, (i, r) ∈ filterByMonthAndType g month sh →
      g.rows[i]? = some r := by
    intro i r h
    unfold filterByMonthAndType at h
    have h1 := (List.mem_filter.mp h).1
    have h2 := (List.mem_filter.mp h1).1
    exact List.mem_enum_iff_getElem?.mp h2
  have hopt : ∀ i : Nat, i ∈ deleteOptions g month sh ↔
      ∃ r : List Cell, (i, r) ∈ filterByMonthAndType g month sh := by
    intro i
    constructor
    · intro hi
      obtain ⟨p, hp, he⟩ := List.mem_map.mp hi
      exact ⟨p.2, by subst he; simpa using hp⟩
    · intro hr
      obtain ⟨r, hr⟩ := hr
      exact List.mem_map.mpr ⟨(i, r), hr, rfl⟩
  refine ⟨hopt, hmem, fun sel hsel i hi => ?_⟩
  obtain ⟨r, hr⟩ := (hopt i).mp (hsel i hi)
  exact ⟨r, hmem i r hr, hr⟩

/-- Witness for C10: on the example ledger's processed frame, option label 1
of the March 2024 Savings-Only view is the full-frame position of the
Housing income row. -/
theorem deleteOptions_spec_witness :
    (dateProcess frameEx).rows[1]? =
      some [Cell.dt ⟨2024, 3, 2, 11, 30⟩, Cell.str "Housing", Cell.num 500,
        Cell.str "Income/Savings", Cell.str "x", Cell.str "2024-03"] :=
  (deleteOptions_spec (dateProcess frameEx) "2024-03" .savingsOnly).2.1 1 _ (by decide)
